import Mathlib

/-!
# Sentry controller (`controller-sentry.cpp`): control loop of `HeroController::Run`

A shallow embedding of the lambdas and the main loop of
`controller::hero::HeroController::Run`.  The locals of `Run` that the lambdas capture
by reference, the function-local statics and the members they touch are the fields of
`RunState`; every lambda is a function on `RunState`.

Conventions of the embedding:
* `float` and `double` values are rationals (`ℚ`). The conversion of an `int` to `float`
  rounds to binary32 (`static_cast_float`); the rounding of floating-point arithmetic
  (`+=` on points, the division in `stop_count_fps`) is not modelled.
* `uint32_t` is a `Nat` reduced modulo `2 ^ 32` where it is incremented.
* Collaborators whose code is outside this file of the repository (frame source, detector,
  solver, coordinate solver) are the fields of `Collab`.
* Effects on the outside are recorded as traces: `log` (glog records), `video_writer_`
  (images written), `shown` (images passed to `cv::imshow`), drawing primitives appended
  to the overlay of a `Mat`.
-/

namespace Sentry

/-! ## Plain value types -/

/-- A `cv::Point2f`. -/
structure Point2f where
  x : ℚ
  y : ℚ
deriving DecidableEq

/-- The `operator+` / `operator+=` of `cv::Point2f`: componentwise sum. -/
instance : Add Point2f := ⟨fun p q => ⟨p.x + q.x, p.y + q.y⟩⟩

/-- A `ballistic_solver::CVec`: three Cartesian components. -/
structure CVec where
  x : ℚ
  y : ℚ
  z : ℚ
deriving DecidableEq

/-- A `coordinate::EAngle`, three angles in the order of its brace initialiser. -/
structure EAngle where
  e0 : ℚ
  e1 : ℚ
  e2 : ℚ
deriving DecidableEq

/-- A `struct timespec`. -/
structure Timespec where
  tv_sec : Int
  tv_nsec : Int
deriving DecidableEq

/-- A clock reading delivered by `clock_gettime`: the nanosecond field lies in `[0, 10^9)`. -/
def Timespec.valid (t : Timespec) : Prop := 0 ≤ t.tv_nsec ∧ t.tv_nsec < 1000000000

instance (t : Timespec) : Decidable t.valid := by
  unfold Timespec.valid; infer_instance

/-- The time from reading `a` to reading `b`, in seconds. -/
def Timespec.elapsed (a b : Timespec) : ℚ :=
  ((b.tv_sec - a.tv_sec : Int) : ℚ) + ((b.tv_nsec - a.tv_nsec : Int) : ℚ) / 1000000000

/-- The string drawn by a `cv::putText`, kept as the value that is formatted into it. -/
inductive TextLabel
  | time (delta_time_ns : Int)
  | fps (show_fps : ℚ)
  | rec_count (rec_frame_count : Nat)
deriving DecidableEq

/-- The colour argument `cv::Scalar(b, g, r)`. -/
structure Scalar where
  b : Nat
  g : Nat
  r : Nat
deriving DecidableEq

/-- One drawing primitive applied to an image. -/
inductive DrawOp
  | circle (center : Point2f) (radius : Nat) (color : Scalar) (thickness : Nat)
  | line (p q : Point2f) (color : Scalar) (thickness : Nat)
  | putText (text : TextLabel) (org : Int × Int) (color : Scalar)
deriving DecidableEq

/-- A `cv::Mat` image: the pixels as delivered by the source (an identifier) and the
drawing primitives applied to it since, oldest first. -/
structure Mat where
  pixels : Nat
  overlay : List DrawOp
deriving DecidableEq

/-- The `cv::circle(img, center, radius, color, thickness)` primitive. -/
def Mat.circle (img : Mat) (center : Point2f) (radius : Nat) (color : Scalar)
    (thickness : Nat) : Mat :=
  { img with overlay := img.overlay ++ [DrawOp.circle center radius color thickness] }

/-- The `cv::line(img, p, q, color, thickness)` primitive. -/
def Mat.line (img : Mat) (p q : Point2f) (color : Scalar) (thickness : Nat) : Mat :=
  { img with overlay := img.overlay ++ [DrawOp.line p q color thickness] }

/-- The `cv::putText(img, text, org, font, scale, color)` primitive. -/
def Mat.putText (img : Mat) (text : TextLabel) (org : Int × Int) (color : Scalar) : Mat :=
  { img with overlay := img.overlay ++ [DrawOp.putText text org color] }

/-- The fields of `frame_.receive_packet` that `Run` reads or writes. -/
structure ReceivePacket where
  roll : ℚ
  yaw : ℚ
  pitch : ℚ
  bullet_speed : ℚ
deriving DecidableEq

/-- The `Frame` filled by the video source. -/
structure Frame where
  image : Mat
  time_stamp : Int
  receive_packet : ReceivePacket
deriving DecidableEq

/-- The `Armor::ArmorSize` enumeration. -/
inductive ArmorSize
  | kAuto
  | SMALL
  | BIG
deriving DecidableEq

/-- Modelled from the spec: `common/armor.h` is missing; an `Armor` (the spec's
TargetObservation) holds four ordered pixel-space vertices, the attitude it was built
under and a size classification. What the constructor of `Armor` does with its arguments
is not visible in this file of the repository. -/
structure Armor where
  vertexes : Fin 4 → Point2f
  attitude : EAngle
  size : ArmorSize

/-- The arguments of one `emplace_back` call of line 145 (`coord_solver_` apart, which is
fixed): the vertex, the attitude, the size and the value behind `&armor_center`. -/
structure EmplaceCall where
  vertex : Point2f
  attitude : EAngle
  size : ArmorSize
  center : Point2f
deriving DecidableEq

/-- A glog record. -/
inductive LogRecord
  | warning_no_frame
  | info_quit
  | info_control (resume : Bool)
  | info_fps (fps : ℚ)
deriving DecidableEq

/-- The `ballistic_solver::BallisticInfo` out-parameter of `Solve`. -/
structure BallisticInfo where
  x : CVec
  v_0 : CVec
deriving DecidableEq

/-- What a call of `BallisticSolver::Solve` delivers: its `bool` result and its two
out-parameters. -/
structure SolveResult where
  ok : Bool
  solution : BallisticInfo
  error : ℚ
deriving DecidableEq

/-- The command-line switches `cli_argv.UI()`, `cli_argv.Record()`, `cli_argv.Serial()`. -/
structure CliArgs where
  UI : Bool
  Record : Bool
  Serial : Bool
deriving DecidableEq

/-- The collaborators of `Run` whose code is not in this file. `GetFrame k` is what the
`k`-th call of `video_source_->GetFrame` delivers (`none`: the call returns `false`). -/
structure Collab where
  GetFrame : Nat → Option Frame
  armor_detector : Mat → Fin 4 → Point2f
  Solve : CVec → ℚ → CVec → SolveResult
  CTVecWorld : Armor → CVec
  CTVecCam : Armor → CVec
  EAngleToRMat : EAngle → Matrix (Fin 3) (Fin 3) ℚ
  WorldToCam : CVec → Matrix (Fin 3) (Fin 3) ℚ → CVec
  CamToPic : CVec → Point2f
  STVecToCTVec : CVec → CVec

/-! ## The state of `Run` -/

/-- The locals of `Run` captured by its lambdas, the function-local statics
(`rec_frame_count`, `armor_locked`, `start_time`), the members used (`frame_`,
`exit_signal_`, `armors_`), the array that lines 197-202 call `armor.Vertexes()`
(`armor_vertexes`, its name in the commented line 198) and the traces of outside effects.
`fetches` counts the calls of `GetFrame`; `emplace_calls` lists the calls of line 145. -/
structure RunState where
  fps : ℚ
  show_fps : ℚ
  pause : Bool
  show_warning : Bool
  ts_start : Timespec
  current_attitude : EAngle
  frame_ : Frame
  exit_signal_ : Bool
  armors_ : List Point2f
  emplace_calls : List EmplaceCall
  armor_vertexes : Fin 4 → Point2f
  armor_center : Point2f
  armor_locked : Bool
  rec_frame_count : Nat
  start_time : Option Int
  fetches : Nat
  video_writer_ : List Mat
  shown : List (String × Mat)
  log : List LogRecord

/-! ## The pointer handler `on_mouse` (lines 168-184) -/

/-- The OpenCV constant `cv::EVENT_MOUSEMOVE`. -/
def EVENT_MOUSEMOVE : Int := 0
/-- The OpenCV constant `cv::EVENT_LBUTTONDOWN`. -/
def EVENT_LBUTTONDOWN : Int := 1
/-- The OpenCV constant `cv::EVENT_RBUTTONDOWN`. -/
def EVENT_RBUTTONDOWN : Int := 2

/-- The conversion `static_cast<float>(x)` of an `int`: the nearest binary32 value, ties
to the even significand. A binary32 value has 24 significant bits, so with
`2 ^ e <= |x| < 2 ^ (e + 1)` the result is a multiple of `ulp = 2 ^ (e - 23)` (of 1 when
`e <= 23`); an `int` is far below the binary32 range, so nothing overflows. -/
def static_cast_float (x : Int) : ℚ :=
  let a := x.natAbs
  let ulp := 2 ^ (Nat.log 2 a - 23)
  let q := a / ulp
  let r := a % ulp
  let m :=
    if 2 * r < ulp then q
    else if ulp < 2 * r then q + 1
    else if q % 2 = 0 then q
    else q + 1
  ((x.sign * ((m * ulp : Nat) : Int) : Int) : ℚ)

/-- The mouse callback; `userdata` is `&armor_center` (line 188). -/
def on_mouse (event x y _flags : Int) (s : RunState) : RunState :=
  if event = EVENT_MOUSEMOVE then
    if !s.armor_locked then
      { s with armor_center := ⟨static_cast_float x, static_cast_float y⟩ }
    else s
  else if event = EVENT_LBUTTONDOWN then { s with armor_locked := true }
  else if event = EVENT_RBUTTONDOWN then { s with armor_locked := false }
  else s

/-- One pointer event as OpenCV hands it to the callback. -/
structure MouseEvent where
  event : Int
  x : Int
  y : Int
  flags : Int
deriving DecidableEq

/-- Delivery of a sequence of pointer events, oldest first. -/
def on_mouse_seq (es : List MouseEvent) (s : RunState) : RunState :=
  es.foldl (fun st e => on_mouse e.event e.x e.y e.flags st) s

/-! ## Frame acquisition: `update_frame_data` (lines 53-62) -/

/-- The frame callback `patch_default_bullet_speed` (lines 160-162). -/
def patch_default_bullet_speed (frame : Frame) : Frame :=
  { frame with receive_packet := { frame.receive_packet with bullet_speed := 14 } }

/-- The call `video_source_->GetFrame(frame_)`: its `bool` result and the state after it.
A delivered frame replaces `frame_`, after the callback registered at lines 163-164 (only
without `--serial`) has patched it; a failed call leaves `frame_` as it was. -/
def GetFrame (cli : CliArgs) (w : Collab) (s : RunState) : Bool × RunState :=
  match w.GetFrame s.fetches with
  | some f =>
      (true, { s with fetches := s.fetches + 1,
                      frame_ := if !cli.Serial then patch_default_bullet_speed f else f })
  | none => (false, { s with fetches := s.fetches + 1 })

/-- The lambda `update_frame_data`. -/
def update_frame_data (cli : CliArgs) (w : Collab) (s : RunState) : Bool × RunState :=
  if s.pause then (false, s)
  else
    let ret := (GetFrame cli w s).1
    let s1 := (GetFrame cli w s).2
    let s2 :=
      if ret then
        { s1 with current_attitude :=
            ⟨s1.frame_.receive_packet.roll, s1.frame_.receive_packet.yaw,
             s1.frame_.receive_packet.pitch⟩ }
      else s1
    let s3 :=
      if !ret && s2.show_warning then
        { s2 with log := s2.log ++ [LogRecord.warning_no_frame] }
      else s2
    (ret, { s3 with show_warning := ret })

/-! ## Display and recording: `frame_time_str`, `update_window` (lines 37-51, 64-86) -/

/-- The lambda `frame_time_str`: the static `start_time` is set by the first call; the
string formats `time_stamp - start_time`. -/
def frame_time_str (time_stamp : Int) (s : RunState) : TextLabel × RunState :=
  match s.start_time with
  | some t0 => (TextLabel.time (time_stamp - t0), s)
  | none => (TextLabel.time (time_stamp - time_stamp), { s with start_time := some time_stamp })

/-- The lambda `update_window`. -/
def update_window (cli : CliArgs) (title : String) (s : RunState) : RunState :=
  let ss_fps := s.show_fps
  if !s.pause && s.show_warning then
    let s1 :=
      if cli.Record then
        { s with video_writer_ := s.video_writer_ ++ [s.frame_.image],
                 rec_frame_count := (s.rec_frame_count + 1) % 2 ^ 32 }
      else s
    if cli.UI then
      let lbl := (frame_time_str s1.frame_.time_stamp s1).1
      let s2 := (frame_time_str s1.frame_.time_stamp s1).2
      let img1 := (s2.frame_.image.putText lbl (0, 24) ⟨0, 192, 0⟩).putText
        (TextLabel.fps ss_fps) (0, 48) ⟨0, 192, 0⟩
      let img2 :=
        if cli.Record then
          img1.putText (TextLabel.rec_count s2.rec_frame_count) (0, 72) ⟨0, 0, 192⟩
        else img1
      { s2 with frame_ := { s2.frame_ with image := img2 },
                shown := s2.shown ++ [(title, img2)] }
    else s1
  else s

/-! ## Frame-rate measurement: `start_count_fps`, `stop_count_fps` (lines 88-98) -/

/-- The lambda `start_count_fps`; `now` is the reading `clock_gettime` delivers. -/
def start_count_fps (now : Timespec) (s : RunState) : RunState :=
  { s with ts_start := now }

/-- The lambda `stop_count_fps`; `ts_end` is the reading `clock_gettime` delivers. -/
def stop_count_fps (ts_end : Timespec) (s : RunState) : RunState :=
  let delta_time_ns := ts_end.tv_nsec - s.ts_start.tv_nsec
  if delta_time_ns > 0 then
    { s with fps := 1000000000 / (delta_time_ns : ℚ) }
  else s

/-! ## Keyboard: `check_key` (lines 101-112) -/

/-- The character literal `q` as the `int` that `cv::waitKey` is compared with. -/
def KEY_q : Int := 113
/-- The character literal `p` as the `int` that `cv::waitKey` is compared with. -/
def KEY_p : Int := 112

/-- The lambda `check_key`; `key` is what `cv::waitKey(1)` delivers when it is called. -/
def check_key (cli : CliArgs) (key : Int) (s : RunState) : RunState :=
  if cli.UI then
    if key = KEY_q then
      { s with log := s.log ++ [LogRecord.info_quit], exit_signal_ := true }
    else if key = KEY_p then
      { s with log := s.log ++ [LogRecord.info_control s.pause], pause := !s.pause }
    else s
  else s

/-! ## Telemetry thread: `auto_log_fps` (lines 114-122) -/

/-- The body of one iteration of the `while (!exit_signal_)` loop of the thread
`auto_log_fps` (the `sleep(1)` apart). -/
def auto_log_fps_body (s : RunState) : RunState :=
  if !s.pause && s.show_warning then
    { s with show_fps := s.fps, log := s.log ++ [LogRecord.info_fps s.fps] }
  else s

/-- The thread `auto_log_fps` run for `n` iterations with nothing in between. -/
def auto_log_fps : Nat → RunState → RunState
  | 0, s => s
  | n + 1, s => if !s.exit_signal_ then auto_log_fps n (auto_log_fps_body s) else s

/-! ## Aim overlay: `fix_aim_point` (lines 124-138) -/

/-- The lambda `fix_aim_point`: the vector it returns and the state after it. -/
def fix_aim_point (w : Collab) (armor : Armor) (intrinsic_v : CVec) (s : RunState) :
    CVec × RunState :=
  let r := w.Solve (w.CTVecWorld armor) s.frame_.receive_packet.bullet_speed intrinsic_v
  if r.ok then
    let target_pic :=
      w.CamToPic (w.WorldToCam r.solution.x (w.EAngleToRMat s.current_attitude))
    let img1 := s.frame_.image.circle target_pic 2 ⟨192, 0, 192⟩ 2
    let v_0_pic :=
      w.CamToPic (w.WorldToCam (w.STVecToCTVec r.solution.v_0)
        (w.EAngleToRMat s.current_attitude))
    let img2 := img1.circle v_0_pic 2 ⟨0, 0, 192⟩ 2
    (r.solution.v_0, { s with frame_ := { s.frame_ with image := img2 } })
  else (⟨0, 0, 0⟩, s)

/-! ## Target assembly and drawing (lines 140-158, 197-202) -/

/-- The lambda `bbox_to_armor`. Lines 140-146 are not well-formed C++ (a point is assigned
to `armors_`, `emplace_back` is called on a `const` point, `armor` is not in scope), so
they have no behaviour to embed; this is one reading, statement by statement on the
variables the text names: line 141 empties `armors_`; line 143 assigns the `i`-th vertex
to `armors_`, four times; line 145 runs over the vertices and its `emplace_back` calls
are recorded in `emplace_calls`. It serves only to place the call in the loop body: the
properties below use no more of it than that it leaves the fields outside the frame and
the assembly variables alone. -/
def bbox_to_armor (size : ArmorSize) (s : RunState) : RunState :=
  let s1 := { s with armors_ := [] }
  let s2 := ([0, 1, 2, 3] : List (Fin 4)).foldl
    (fun st i => { st with armors_ := [st.armor_vertexes i] }) s1
  ([0, 1, 2, 3] : List (Fin 4)).foldl
    (fun st i =>
      let call : EmplaceCall := ⟨st.armor_vertexes i, st.current_attitude, size, st.armor_center⟩
      { st with emplace_calls := st.emplace_calls ++ [call] }) s2

/-- Line 201, `for (auto &&p : armor.Vertexes()) p += armor_center;`, read as in-place
updates of the array declared at line 197 (line 197 is not a well-formed declaration; the
commented line 198 names the array `armor_vertexes`). One reading, as for
`bbox_to_armor`. -/
def offset_vertexes (s : RunState) : RunState :=
  ([0, 1, 2, 3] : List (Fin 4)).foldl
    (fun st i =>
      { st with
        armor_vertexes :=
          Function.update st.armor_vertexes i (st.armor_vertexes i + st.armor_center) }) s

/-- Lines 200-202: `bbox_to_armor()` with its default size, the offset loop and the
construction `Armor armor{armor.Vertexes(), coord_solver_, current_attitude, SMALL}`,
under the reading of the two definitions above and with the constructor keeping its
arguments. Yields the armor and the state after the three steps. -/
def assemble_armor (s : RunState) : Armor × RunState :=
  let s1 := offset_vertexes (bbox_to_armor ArmorSize.kAuto s)
  (⟨s1.armor_vertexes, s1.current_attitude, ArmorSize.SMALL⟩, s1)

/-- The lambda `draw_armor`: the four edges of the outline. -/
def draw_armor (armor : Armor) (s : RunState) : RunState :=
  ([0, 1, 2, 3] : List (Fin 4)).foldl
    (fun st i =>
      let img := st.frame_.image.line (armor.vertexes i) (armor.vertexes (i + 1)) ⟨0, 192, 0⟩ 2
      { st with frame_ := { st.frame_ with image := img } }) s

/-- The lambda `draw_outpost`: four circles at the projected armor centre. -/
def draw_outpost (w : Collab) (armor : Armor) (s : RunState) : RunState :=
  ([0, 1, 2, 3] : List (Fin 4)).foldl
    (fun st _ =>
      let img := st.frame_.image.circle (w.CamToPic (w.CTVecCam armor)) 2 ⟨0, 192, 0⟩ 2
      { st with frame_ := { st.frame_ with image := img } }) s

/-! ## The main loop (lines 191-211) -/

/-- Lines 195-206: the body of `if (cli_argv.UI() && !pause && show_warning)`. -/
def detect_and_aim (w : Collab) (s : RunState) : RunState :=
  let s1 := { s with armor_vertexes := w.armor_detector s.frame_.image }
  let armor := (assemble_armor s1).1
  let s2 := (assemble_armor s1).2
  let s3 := draw_armor armor s2
  (fix_aim_point w armor ⟨0, 0, 0⟩ s3).2

/-- What the outside delivers during one pass of the loop body: the two clock readings
and the key code of `cv::waitKey(1)`. -/
structure TickInput where
  t_start : Timespec
  t_end : Timespec
  key : Int
deriving DecidableEq

/-- One pass of the body of `while (!exit_signal_)`. -/
def tick (cli : CliArgs) (w : Collab) (inp : TickInput) (s : RunState) : RunState :=
  let s1 := start_count_fps inp.t_start s
  let s2 := (update_frame_data cli w s1).2
  let s3 := if cli.UI && !s2.pause && s2.show_warning then detect_and_aim w s2 else s2
  let s4 := update_window cli "SENTRY" s3
  let s5 := stop_count_fps inp.t_end s4
  check_key cli inp.key s5

/-- The passes of the main loop in a row, one per input, oldest first. -/
def ticks (cli : CliArgs) (w : Collab) (inps : List TickInput) (s : RunState) : RunState :=
  inps.foldl (fun st inp => tick cli w inp st) s

/-- One scheduling step of the running controller: a pass of the main loop, an iteration
of the telemetry thread, or the delivery of a pointer event. -/
inductive Step
  | main (inp : TickInput)
  | telemetry
  | pointer (e : MouseEvent)
deriving DecidableEq

/-- The effect of one step. Both loops test `exit_signal_` before their body; the pointer
callback is registered only with the UI (lines 186-189). -/
def step (cli : CliArgs) (w : Collab) (st : Step) (s : RunState) : RunState :=
  match st with
  | Step.main inp => if !s.exit_signal_ then tick cli w inp s else s
  | Step.telemetry => if !s.exit_signal_ then auto_log_fps_body s else s
  | Step.pointer e => if cli.UI then on_mouse e.event e.x e.y e.flags s else s

/-- A sequence of steps, oldest first. -/
def steps (cli : CliArgs) (w : Collab) (sts : List Step) (s : RunState) : RunState :=
  sts.foldl (fun st x => step cli w x st) s

/-- The state in which `Run` enters its loop (lines 19-23, 65, 166, 169): `frame_` and
`Armor.center_` are what the object holds at that point. -/
def Run_init (frame_ : Frame) (center_ : Point2f) : RunState :=
  { fps := 0, show_fps := 0, pause := false, show_warning := true,
    ts_start := ⟨0, 0⟩, current_attitude := ⟨0, 0, 0⟩, frame_ := frame_,
    exit_signal_ := false, armors_ := [], emplace_calls := [],
    armor_vertexes := fun _ => ⟨0, 0⟩, armor_center := center_, armor_locked := false,
    rec_frame_count := 0, start_time := none, fetches := 0, video_writer_ := [],
    shown := [], log := [] }

/-! ## Auxiliary notions for the statements -/

/-- The number of frame-unavailable warnings in the log. -/
def warning_count (s : RunState) : Nat := s.log.count LogRecord.warning_no_frame

/-- Two states agree on every field except the frame and the assembly variables. -/
def same_control (a b : RunState) : Prop :=
  a.fps = b.fps ∧ a.show_fps = b.show_fps ∧ a.pause = b.pause ∧
  a.show_warning = b.show_warning ∧ a.ts_start = b.ts_start ∧
  a.current_attitude = b.current_attitude ∧ a.exit_signal_ = b.exit_signal_ ∧
  a.armor_center = b.armor_center ∧ a.armor_locked = b.armor_locked ∧
  a.rec_frame_count = b.rec_frame_count ∧ a.start_time = b.start_time ∧
  a.fetches = b.fetches ∧ a.video_writer_ = b.video_writer_ ∧ a.shown = b.shown ∧
  a.log = b.log

/-- A step in which no pause-toggle key, quit key or pointer event is delivered. -/
def Step.quiet : Step → Prop
  | Step.main inp => inp.key ≠ KEY_p ∧ inp.key ≠ KEY_q
  | Step.telemetry => True
  | Step.pointer _ => False

/-! ## Concrete inputs -/

/-- A frame with an empty overlay, used to build concrete states. -/
def sample_frame : Frame := ⟨⟨0, []⟩, 0, ⟨0, 0, 0, 0⟩⟩

/-- The loop-entry state with the sample frame and the center `(45, 40)` of line 167. -/
def sample_state : RunState := Run_init sample_frame ⟨45, 40⟩

/-- Keys delivered to `check_key` one after the other, oldest first. -/
def check_key_seq (cli : CliArgs) (keys : List Int) (s : RunState) : RunState :=
  keys.foldl (fun st k => check_key cli k st) s

/-- Collaborators for concrete runs: the frame source fails on its calls number 1 and 2
and delivers the sample frame otherwise; the detector reports the outline of line 198;
the solver succeeds with impact point `(1, 2, 10)` and aim vector `(3, 4, 5)`; the
attitude matrix is the identity, `WorldToCam` and `STVecToCTVec` return their argument and
`CamToPic` drops the third component. -/
def sample_collab : Collab :=
  { GetFrame := fun k => if k = 1 ∨ k = 2 then none else some sample_frame,
    armor_detector := fun _ i => ![⟨-45, -40⟩, ⟨45, -40⟩, ⟨45, 40⟩, ⟨-45, 40⟩] i,
    Solve := fun _ _ _ => ⟨true, ⟨⟨1, 2, 10⟩, ⟨3, 4, 5⟩⟩, 0⟩,
    CTVecWorld := fun _ => ⟨0, 0, 10⟩,
    CTVecCam := fun _ => ⟨0, 0, 10⟩,
    EAngleToRMat := fun _ => 1,
    WorldToCam := fun c _ => c,
    CamToPic := fun c => ⟨c.x, c.y⟩,
    STVecToCTVec := fun c => c }

/-- An armor for concrete runs: the outline of line 198 under the zero attitude. -/
def sample_armor : Armor :=
  ⟨fun i => ![⟨-45, -40⟩, ⟨45, -40⟩, ⟨45, 40⟩, ⟨-45, 40⟩] i, ⟨0, 0, 0⟩, ArmorSize.SMALL⟩

/-- The sample collaborators with a solver that reports failure. -/
def failing_collab : Collab :=
  { sample_collab with Solve := fun _ _ _ => ⟨false, ⟨⟨0, 0, 0⟩, ⟨0, 0, 0⟩⟩, 0⟩ }

/-- The sample collaborators with a solver that succeeds with impact point and aim vector
`(-1, -1, -1)`: as `WorldToCam` and `STVecToCTVec` return their argument, both
camera-frame points are `(-1, -1, -1)`, behind the camera whichever axis is forward. -/
def behind_collab : Collab :=
  { sample_collab with Solve := fun _ _ _ => ⟨true, ⟨⟨-1, -1, -1⟩, ⟨-1, -1, -1⟩⟩, 0⟩ }

/-! ## Properties of the pointer handler -/

/-- While the lock is on and no secondary click arrives, pointer events keep the lock and
the center. -/
theorem on_mouse_seq_locked (es : List MouseEvent) (s : RunState)
    (hl : s.armor_locked = true) (hes : ∀ e ∈ es, e.event ≠ EVENT_RBUTTONDOWN) :
    (on_mouse_seq es s).armor_locked = true ∧
      (on_mouse_seq es s).armor_center = s.armor_center := by
  induction es generalizing s with
  | nil => exact ⟨hl, rfl⟩
  | cons e es ih =>
    have he : e.event ≠ EVENT_RBUTTONDOWN := hes e (List.mem_cons_self _ _)
    have hrest : ∀ m ∈ es, m.event ≠ EVENT_RBUTTONDOWN :=
      fun m hm => hes m (List.mem_cons_of_mem _ hm)
    have hstep : (on_mouse e.event e.x e.y e.flags s).armor_locked = true ∧
        (on_mouse e.event e.x e.y e.flags s).armor_center = s.armor_center := by
      unfold on_mouse
      split_ifs <;> simp_all
    have h := ih (on_mouse e.event e.x e.y e.flags s) hstep.1 hrest
    exact ⟨h.1, h.2.trans hstep.2⟩

/-- While the lock is off and no primary click arrives, pointer events keep it off. -/
theorem on_mouse_seq_unlocked (es : List MouseEvent) (s : RunState)
    (hl : s.armor_locked = false) (hes : ∀ e ∈ es, e.event ≠ EVENT_LBUTTONDOWN) :
    (on_mouse_seq es s).armor_locked = false := by
  induction es generalizing s with
  | nil => exact hl
  | cons e es ih =>
    have he : e.event ≠ EVENT_LBUTTONDOWN := hes e (List.mem_cons_self _ _)
    have hrest : ∀ m ∈ es, m.event ≠ EVENT_LBUTTONDOWN :=
      fun m hm => hes m (List.mem_cons_of_mem _ hm)
    have hstep : (on_mouse e.event e.x e.y e.flags s).armor_locked = false := by
      unfold on_mouse
      split_ifs <;> simp_all
    exact ih (on_mouse e.event e.x e.y e.flags s) hstep hrest

/-- A pointer-move with the lock off stores the converted coordinates in the center. -/
theorem on_mouse_move_unlocked (s : RunState) (hl : s.armor_locked = false)
    (mx my mfl : Int) :
    (on_mouse EVENT_MOUSEMOVE mx my mfl s).armor_center
      = ⟨static_cast_float mx, static_cast_float my⟩ := by
  simp [on_mouse, hl]

/-- A primary click switches the lock on and keeps the center. -/
theorem on_mouse_lbutton (s : RunState) (x y fl : Int) :
    (on_mouse EVENT_LBUTTONDOWN x y fl s).armor_locked = true ∧
      (on_mouse EVENT_LBUTTONDOWN x y fl s).armor_center = s.armor_center := by
  simp [on_mouse, EVENT_LBUTTONDOWN, EVENT_MOUSEMOVE]

/-- A secondary click switches the lock off. -/
theorem on_mouse_rbutton (s : RunState) (x y fl : Int) :
    (on_mouse EVENT_RBUTTONDOWN x y fl s).armor_locked = false := by
  simp [on_mouse, EVENT_LBUTTONDOWN, EVENT_MOUSEMOVE, EVENT_RBUTTONDOWN]

/-- The conversion to `float` is exact up to 2^24 in absolute value. -/
theorem static_cast_float_exact (x : Int) (h : x.natAbs ≤ 2 ^ 24) :
    static_cast_float x = (x : ℚ) := by
  have hcase : Nat.log 2 x.natAbs - 23 = 0 ∨ x.natAbs = 2 ^ 24 := by
    rcases Nat.lt_or_eq_of_le h with hlt | heq
    · left
      have : Nat.log 2 x.natAbs < 24 := by
        by_cases h0 : x.natAbs = 0
        · simp [h0]
        · exact Nat.log_lt_of_lt_pow h0 hlt
      omega
    · exact Or.inr heq
  have hsign : x.sign * (x.natAbs : Int) = x := Int.sign_mul_natAbs x
  unfold static_cast_float
  rcases hcase with h0 | h24
  · simp only [h0, pow_zero, Nat.div_one, Nat.mod_one, mul_zero, Nat.lt_one_iff, if_true,
      mul_one, zero_lt_one]
    rw [hsign]
  · have hlog : Nat.log 2 x.natAbs = 24 := by
      rw [h24]; exact Nat.log_pow (by norm_num) 24
    simp only [hlog]
    rw [h24] at hsign ⊢
    norm_num
    exact_mod_cast hsign

/-- The `int` 16777217 = 2^24 + 1 is converted to the `float` 16777216. -/
theorem static_cast_float_16777217 : static_cast_float 16777217 = 16777216 := by
  have h : Nat.log 2 (16777217 : Int).natAbs = 24 :=
    Nat.log_eq_of_pow_le_of_lt_pow (by norm_num) (by norm_num)
  have hs : (16777217 : Int).sign = 1 := rfl
  simp only [static_cast_float, h, hs]
  norm_num

/-- C1 fails as stated: after a secondary click, a pointer-move to x = 16777217, y = 0
sets the center to (16777216, 0), which is not the move's (x, y). -/
theorem C1_move_coordinate_rounded :
    (on_mouse EVENT_MOUSEMOVE 16777217 0 0
        (on_mouse EVENT_RBUTTONDOWN 0 0 0 sample_state)).armor_center = ⟨16777216, 0⟩ ∧
    (⟨16777216, 0⟩ : Point2f) ≠ ⟨((16777217 : Int) : ℚ), ((0 : Int) : ℚ)⟩ := by
  constructor
  · rw [on_mouse_move_unlocked _ (on_mouse_rbutton sample_state 0 0 0),
      static_cast_float_16777217, static_cast_float_exact 0 (by decide)]
    norm_num
  · intro h
    have hx := congrArg Point2f.x h
    norm_num at hx

/-- C1 as amended: from any state, after a primary click (left button down) every
following sequence of pointer events without a secondary click (right button down) leaves
the acquisition center at its value at the moment of the click, whatever the coordinates
of the moves; and after a secondary click, followed by any pointer events other than a
primary click, a pointer-move sets the center to the move's coordinates converted to
`float`, which is the move's (x, y) itself whenever |x| and |y| are at most 2^24. -/
theorem C1_on_mouse_lock_holds_center (s : RunState) (x y fl : Int) (es : List MouseEvent) :
    ((∀ e ∈ es, e.event ≠ EVENT_RBUTTONDOWN) →
      (on_mouse EVENT_LBUTTONDOWN x y fl s).armor_center = s.armor_center ∧
      (on_mouse_seq es (on_mouse EVENT_LBUTTONDOWN x y fl s)).armor_center
        = (on_mouse EVENT_LBUTTONDOWN x y fl s).armor_center) ∧
    ((∀ e ∈ es, e.event ≠ EVENT_LBUTTONDOWN) → ∀ mx my mfl : Int,
      (on_mouse EVENT_MOUSEMOVE mx my mfl
        (on_mouse_seq es (on_mouse EVENT_RBUTTONDOWN x y fl s))).armor_center
        = ⟨static_cast_float mx, static_cast_float my⟩ ∧
      (mx.natAbs ≤ 2 ^ 24 → my.natAbs ≤ 2 ^ 24 →
        (on_mouse EVENT_MOUSEMOVE mx my mfl
          (on_mouse_seq es (on_mouse EVENT_RBUTTONDOWN x y fl s))).armor_center
          = ⟨(mx : ℚ), (my : ℚ)⟩)) := by
  refine ⟨fun hes => ⟨(on_mouse_lbutton s x y fl).2, ?_⟩, ?_⟩
  · exact (on_mouse_seq_locked es _ (on_mouse_lbutton s x y fl).1 hes).2
  · intro hes mx my mfl
    have h := on_mouse_seq_unlocked es (on_mouse EVENT_RBUTTONDOWN x y fl s)
      (on_mouse_rbutton s x y fl) hes
    refine ⟨on_mouse_move_unlocked _ h mx my mfl, fun hx hy => ?_⟩
    rw [on_mouse_move_unlocked _ h, static_cast_float_exact mx hx,
      static_cast_float_exact my hy]

/-- C1 as amended, at a concrete run: click at (5, 5), then a move to (7, 9) and a
button-up event; the center stays where it was at the click; after a secondary click and
the same two events, a move to (11, 12) sets the center to (11, 12). -/
theorem C1_on_mouse_lock_holds_center_witness :
    (on_mouse_seq [⟨0, 7, 9, 0⟩, ⟨4, 7, 9, 0⟩]
        (on_mouse EVENT_LBUTTONDOWN 5 5 0 sample_state)).armor_center
      = (on_mouse EVENT_LBUTTONDOWN 5 5 0 sample_state).armor_center ∧
    (on_mouse EVENT_MOUSEMOVE 11 12 0
        (on_mouse_seq [⟨0, 7, 9, 0⟩, ⟨4, 7, 9, 0⟩]
          (on_mouse EVENT_RBUTTONDOWN 5 5 0 sample_state))).armor_center
      = ⟨((11 : Int) : ℚ), ((12 : Int) : ℚ)⟩ :=
  ⟨((C1_on_mouse_lock_holds_center sample_state 5 5 0 [⟨0, 7, 9, 0⟩, ⟨4, 7, 9, 0⟩]).1
      (by decide)).2,
   ((C1_on_mouse_lock_holds_center sample_state 5 5 0 [⟨0, 7, 9, 0⟩, ⟨4, 7, 9, 0⟩]).2
      (by decide) 11 12 0).2 (by decide) (by decide)⟩

/-! ## Properties of the frame-rate measurement -/

/-- C3 (the code at a tick that crosses a second boundary): the tick starts at
0 s 900000000 ns and ends at 1 s 100000000 ns, both valid clock readings, 1/5 s apart;
`stop_count_fps` leaves the instantaneous FPS at its old value 30, not at 1 / (1/5) = 5.
And a tick from 0 s 100000000 ns to 2 s 350000000 ns, 9/4 s apart, sets it to 4. -/
theorem C3_stop_count_fps_ignores_tv_sec :
    (⟨0, 900000000⟩ : Timespec).valid ∧ (⟨1, 100000000⟩ : Timespec).valid ∧
    Timespec.elapsed ⟨0, 900000000⟩ ⟨1, 100000000⟩ = 1 / 5 ∧
    (stop_count_fps ⟨1, 100000000⟩
      (start_count_fps ⟨0, 900000000⟩ { sample_state with fps := 30 })).fps = 30 ∧
    Timespec.elapsed ⟨0, 100000000⟩ ⟨2, 350000000⟩ = 9 / 4 ∧
    (stop_count_fps ⟨2, 350000000⟩
      (start_count_fps ⟨0, 100000000⟩ { sample_state with fps := 30 })).fps = 4 := by
  refine ⟨by decide, by decide, ?_, ?_, ?_, ?_⟩
  · norm_num [Timespec.elapsed]
  · simp [stop_count_fps, start_count_fps]
  · norm_num [Timespec.elapsed]
  · norm_num [stop_count_fps, start_count_fps]

/-- What `stop_count_fps` computes: with `d` the difference of the two nanosecond fields
alone, the FPS becomes `10^9 / d` when `d > 0` and stays as it was otherwise. -/
theorem stop_count_fps_spec (ts_end : Timespec) (s : RunState) :
    (ts_end.tv_nsec - s.ts_start.tv_nsec > 0 →
      (stop_count_fps ts_end s).fps
        = 1000000000 / ((ts_end.tv_nsec - s.ts_start.tv_nsec : Int) : ℚ)) ∧
    (¬ ts_end.tv_nsec - s.ts_start.tv_nsec > 0 → stop_count_fps ts_end s = s) := by
  constructor <;> intro h <;> simp [stop_count_fps, h]

/-! ## Properties of the key handler -/

/-- One key never clears the exit flag. -/
theorem check_key_exit_mono (cli : CliArgs) (key : Int) (s : RunState)
    (h : s.exit_signal_ = true) : (check_key cli key s).exit_signal_ = true := by
  unfold check_key
  split_ifs <;> simp [h]

/-- No sequence of keys clears the exit flag. -/
theorem check_key_seq_exit_mono (cli : CliArgs) (keys : List Int) (s : RunState)
    (h : s.exit_signal_ = true) : (check_key_seq cli keys s).exit_signal_ = true := by
  induction keys generalizing s with
  | nil => exact h
  | cons k ks ih => exact ih (check_key cli k s) (check_key_exit_mono cli k s h)

/-- C6: with the UI enabled, the key `p` flips the pause flag and keeps the exit flag, and
a second `p` restores every field but the log, which has gained the two control records;
the key `q` sets the exit flag from every state and keeps the pause flag; every other key
changes nothing; no key and no sequence of keys clears the exit flag once it is set, and
with the exit flag set neither loop runs its body again. With the UI disabled no key
changes anything. -/
theorem C6_check_key_transitions (cli : CliArgs) (w : Collab) (s : RunState) :
    (cli.UI = true →
      ((check_key cli KEY_p s).pause = !s.pause ∧
        (check_key cli KEY_p s).exit_signal_ = s.exit_signal_) ∧
      check_key cli KEY_p (check_key cli KEY_p s)
        = { s with log := s.log ++
              [LogRecord.info_control s.pause, LogRecord.info_control (!s.pause)] } ∧
      ((check_key cli KEY_q s).exit_signal_ = true ∧
        (check_key cli KEY_q s).pause = s.pause) ∧
      (∀ key : Int, key ≠ KEY_p → key ≠ KEY_q → check_key cli key s = s)) ∧
    (s.exit_signal_ = true →
      (∀ keys : List Int, (check_key_seq cli keys s).exit_signal_ = true) ∧
      (∀ inp : TickInput, step cli w (Step.main inp) s = s) ∧
      step cli w Step.telemetry s = s) ∧
    (cli.UI = false → ∀ key : Int, check_key cli key s = s) := by
  refine ⟨fun hui => ⟨?_, ?_, ?_, ?_⟩, fun hex => ⟨?_, ?_, ?_⟩, fun hui key => ?_⟩
  · simp [check_key, hui, KEY_p, KEY_q]
  · simp [check_key, hui, KEY_p, KEY_q]
  · simp [check_key, hui, KEY_p, KEY_q]
  · intro key hp hq
    simp [check_key, hui, hp, hq]
  · exact fun keys => check_key_seq_exit_mono cli keys s hex
  · intro inp
    simp [step, hex]
  · simp [step, hex]
  · simp [check_key, hui]

/-- C6 at a concrete run: UI on, from the loop-entry state the key `p` pauses and the key
`q` exits; from a state with the exit flag set the keys `p`, `x`, `p` leave it set; with
the UI off the key `q` changes nothing. -/
theorem C6_check_key_transitions_witness :
    (check_key ⟨true, false, false⟩ KEY_p sample_state).pause = true ∧
    (check_key ⟨true, false, false⟩ KEY_q sample_state).exit_signal_ = true ∧
    (check_key_seq ⟨true, false, false⟩ [112, 120, 112]
        { sample_state with exit_signal_ := true }).exit_signal_ = true ∧
    check_key ⟨false, false, false⟩ KEY_q sample_state = sample_state :=
  ⟨((C6_check_key_transitions ⟨true, false, false⟩ sample_collab
        sample_state).1 rfl).1.1,
   ((C6_check_key_transitions ⟨true, false, false⟩ sample_collab
        sample_state).1 rfl).2.2.1.1,
   ((C6_check_key_transitions ⟨true, false, false⟩ sample_collab
        { sample_state with exit_signal_ := true }).2.1 rfl).1 [112, 120, 112],
   (C6_check_key_transitions ⟨false, false, false⟩ sample_collab
        sample_state).2.2 rfl KEY_q⟩

/-! ## Properties of the telemetry thread -/

/-- C7: one iteration of the telemetry thread, entered with the exit flag clear: if the
loop is not paused and frames are arriving (`show_warning` holds), the smoothed FPS
becomes the instantaneous FPS and exactly one record is appended to the log; otherwise the
state is unchanged and nothing is logged. In both cases no other field changes. -/
theorem C7_auto_log_fps_step (cli : CliArgs) (w : Collab) (s : RunState)
    (hexit : s.exit_signal_ = false) :
    (s.pause = false ∧ s.show_warning = true →
      step cli w Step.telemetry s
        = { s with show_fps := s.fps, log := s.log ++ [LogRecord.info_fps s.fps] }) ∧
    (¬ (s.pause = false ∧ s.show_warning = true) → step cli w Step.telemetry s = s) := by
  constructor
  · rintro ⟨hp, hw⟩
    simp [step, auto_log_fps_body, hexit, hp, hw]
  · intro h
    have : ¬ ((!s.pause && s.show_warning) = true) := by
      intro hc
      apply h
      cases hp : s.pause <;> cases hw : s.show_warning <;> simp_all
    simp [step, auto_log_fps_body, hexit, this]

/-- C7 at a concrete state: running, frames arriving, instantaneous FPS 30: the step
copies 30 into the smoothed FPS and logs one record. -/
theorem C7_auto_log_fps_step_witness :
    step ⟨true, true, false⟩ sample_collab Step.telemetry { sample_state with fps := 30 }
      = { sample_state with fps := 30, show_fps := 30, log := [LogRecord.info_fps 30] } :=
  (C7_auto_log_fps_step ⟨true, true, false⟩ sample_collab { sample_state with fps := 30 }
    rfl).1 ⟨rfl, rfl⟩

/-! ## Properties of the aim overlay -/

/-- C9: with `Solve` any function: if it reports failure, `fix_aim_point` returns
(0, 0, 0) and leaves the state, the frame included, as it was (no marker is drawn); if it
reports success, `fix_aim_point` returns the aim vector `v_0` of the solution and appends
exactly two circles to the frame, the first at the projected impact point and the second
at the projected `v_0`, and changes nothing else. -/
theorem C9_fix_aim_point_outcomes (w : Collab) (armor : Armor) (intrinsic_v : CVec)
    (s : RunState) :
    ((w.Solve (w.CTVecWorld armor) s.frame_.receive_packet.bullet_speed intrinsic_v).ok
        = false →
      fix_aim_point w armor intrinsic_v s = (⟨0, 0, 0⟩, s)) ∧
    ((w.Solve (w.CTVecWorld armor) s.frame_.receive_packet.bullet_speed intrinsic_v).ok
        = true →
      (fix_aim_point w armor intrinsic_v s).1
        = (w.Solve (w.CTVecWorld armor) s.frame_.receive_packet.bullet_speed
            intrinsic_v).solution.v_0 ∧
      (fix_aim_point w armor intrinsic_v s).2
        = { s with frame_ := { s.frame_ with image := { s.frame_.image with
              overlay := s.frame_.image.overlay ++
                [DrawOp.circle
                  (w.CamToPic (w.WorldToCam
                    (w.Solve (w.CTVecWorld armor) s.frame_.receive_packet.bullet_speed
                      intrinsic_v).solution.x
                    (w.EAngleToRMat s.current_attitude))) 2 ⟨192, 0, 192⟩ 2,
                 DrawOp.circle
                  (w.CamToPic (w.WorldToCam
                    (w.STVecToCTVec
                      (w.Solve (w.CTVecWorld armor) s.frame_.receive_packet.bullet_speed
                        intrinsic_v).solution.v_0)
                    (w.EAngleToRMat s.current_attitude))) 2 ⟨0, 0, 192⟩ 2] } } }) := by
  constructor
  · intro h
    simp [fix_aim_point, h]
  · intro h
    simp [fix_aim_point, h, Mat.circle]

/-- C9 at concrete inputs: with the failing solver the result is (0, 0, 0) and the state is
untouched; with the sample solver the result is its aim vector (3, 4, 5). -/
theorem C9_fix_aim_point_outcomes_witness :
    fix_aim_point failing_collab sample_armor ⟨0, 0, 0⟩ sample_state
      = (⟨0, 0, 0⟩, sample_state) ∧
    (fix_aim_point sample_collab sample_armor ⟨0, 0, 0⟩ sample_state).1 = ⟨3, 4, 5⟩ :=
  ⟨(C9_fix_aim_point_outcomes failing_collab sample_armor ⟨0, 0, 0⟩ sample_state).1 rfl,
   ((C9_fix_aim_point_outcomes sample_collab sample_armor ⟨0, 0, 0⟩ sample_state).2 rfl).1⟩

/-- C10 fails as stated: the solve succeeds, the camera-frame points of the impact point
and of `v_0` are both (-1, -1, -1), so every component, the forward one included, is
<= 0, and still both markers are drawn on the frame. -/
theorem C10_markers_drawn_behind_camera :
    (behind_collab.Solve (behind_collab.CTVecWorld sample_armor)
        sample_state.frame_.receive_packet.bullet_speed ⟨0, 0, 0⟩).ok = true ∧
    behind_collab.WorldToCam
        (behind_collab.Solve (behind_collab.CTVecWorld sample_armor)
          sample_state.frame_.receive_packet.bullet_speed ⟨0, 0, 0⟩).solution.x
        (behind_collab.EAngleToRMat sample_state.current_attitude) = ⟨-1, -1, -1⟩ ∧
    behind_collab.WorldToCam
        (behind_collab.STVecToCTVec
          (behind_collab.Solve (behind_collab.CTVecWorld sample_armor)
            sample_state.frame_.receive_packet.bullet_speed ⟨0, 0, 0⟩).solution.v_0)
        (behind_collab.EAngleToRMat sample_state.current_attitude) = ⟨-1, -1, -1⟩ ∧
    sample_state.frame_.image.overlay = [] ∧
    (fix_aim_point behind_collab sample_armor ⟨0, 0, 0⟩ sample_state).2.frame_.image.overlay
      = [DrawOp.circle ⟨-1, -1⟩ 2 ⟨192, 0, 192⟩ 2, DrawOp.circle ⟨-1, -1⟩ 2 ⟨0, 0, 192⟩ 2] := by
  refine ⟨rfl, rfl, rfl, rfl, ?_⟩
  simp [fix_aim_point, behind_collab, sample_collab, sample_state, Run_init, sample_frame,
    Mat.circle]

/-- C10 as amended: for every successful solve, whatever the camera-frame points are (no
condition on a forward component), `fix_aim_point` returns `v_0` and the frame gains
exactly the two circles, at `CamToPic` of the camera-frame impact point and of the
camera-frame `v_0`; `draw_outpost` gains exactly four circles at `CamToPic` of the
camera-frame armor centre. Neither tests the point before it draws. -/
theorem C10_markers_drawn_unconditionally (w : Collab) (armor : Armor) (intrinsic_v : CVec)
    (s : RunState)
    (hok : (w.Solve (w.CTVecWorld armor) s.frame_.receive_packet.bullet_speed
      intrinsic_v).ok = true) :
    (fix_aim_point w armor intrinsic_v s).1
      = (w.Solve (w.CTVecWorld armor) s.frame_.receive_packet.bullet_speed
          intrinsic_v).solution.v_0 ∧
    (fix_aim_point w armor intrinsic_v s).2.frame_.image.overlay
      = s.frame_.image.overlay ++
          [DrawOp.circle
            (w.CamToPic (w.WorldToCam
              (w.Solve (w.CTVecWorld armor) s.frame_.receive_packet.bullet_speed
                intrinsic_v).solution.x
              (w.EAngleToRMat s.current_attitude))) 2 ⟨192, 0, 192⟩ 2,
           DrawOp.circle
            (w.CamToPic (w.WorldToCam
              (w.STVecToCTVec
                (w.Solve (w.CTVecWorld armor) s.frame_.receive_packet.bullet_speed
                  intrinsic_v).solution.v_0)
              (w.EAngleToRMat s.current_attitude))) 2 ⟨0, 0, 192⟩ 2] ∧
    (draw_outpost w armor s).frame_.image.overlay
      = s.frame_.image.overlay ++
          List.replicate 4 (DrawOp.circle (w.CamToPic (w.CTVecCam armor)) 2 ⟨0, 192, 0⟩ 2) := by
  refine ⟨?_, ?_, ?_⟩
  · simp [fix_aim_point, hok]
  · simp [fix_aim_point, hok, Mat.circle]
  · simp [draw_outpost, Mat.circle, List.replicate]

/-- C10 as amended, at the solve whose camera-frame points are (-1, -1, -1): `v_0` is
returned all the same. -/
theorem C10_markers_drawn_unconditionally_witness :
    (fix_aim_point behind_collab sample_armor ⟨0, 0, 0⟩ sample_state).1 = ⟨-1, -1, -1⟩ :=
  (C10_markers_drawn_unconditionally behind_collab sample_armor ⟨0, 0, 0⟩ sample_state rfl).1

/-! ## Properties of the main loop -/


/-- Agreement on the control fields is transitive. -/
theorem same_control_trans {a b c : RunState} (h1 : same_control a b)
    (h2 : same_control b c) : same_control a c := by
  unfold same_control at *
  simp_all

/-- The overlay lambda `fix_aim_point` touches only the frame. -/
theorem fix_aim_point_same_control (w : Collab) (armor : Armor) (v : CVec) (s : RunState) :
    same_control (fix_aim_point w armor v s).2 s := by
  cases h : (w.Solve (w.CTVecWorld armor) s.frame_.receive_packet.bullet_speed v).ok <;>
    simp [fix_aim_point, same_control, h]

/-- The outline lambda `draw_armor` touches only the frame. -/
theorem draw_armor_same_control (armor : Armor) (s : RunState) :
    same_control (draw_armor armor s) s := by
  simp [draw_armor, same_control]

/-- The assembly of lines 200-202 touches only the assembly variables. -/
theorem assemble_armor_same_control (s : RunState) :
    same_control (assemble_armor s).2 s := by
  simp [assemble_armor, offset_vertexes, bbox_to_armor, same_control]

/-- The block of lines 195-206 touches only the frame and the assembly variables. -/
theorem detect_and_aim_same_control (w : Collab) (s : RunState) :
    same_control (detect_and_aim w s) s := by
  unfold detect_and_aim
  refine same_control_trans (fix_aim_point_same_control _ _ _ _) ?_
  refine same_control_trans (draw_armor_same_control _ _) ?_
  refine same_control_trans (assemble_armor_same_control _) ?_
  simp [same_control]

/-- One call of `update_frame_data` while not paused: one fetch is made, the result and the
frames-arriving flag are the outcome of the fetch, and the warning is logged exactly when
the fetch fails with the flag still set. -/
theorem update_frame_data_unpaused (cli : CliArgs) (w : Collab) (s : RunState)
    (hp : s.pause = false) :
    (update_frame_data cli w s).1 = (w.GetFrame s.fetches).isSome ∧
    (update_frame_data cli w s).2.pause = false ∧
    (update_frame_data cli w s).2.show_warning = (w.GetFrame s.fetches).isSome ∧
    (update_frame_data cli w s).2.fetches = s.fetches + 1 ∧
    (update_frame_data cli w s).2.log
      = s.log ++ (if (w.GetFrame s.fetches).isSome = false ∧ s.show_warning = true
          then [LogRecord.warning_no_frame] else []) ∧
    (update_frame_data cli w s).2.rec_frame_count = s.rec_frame_count ∧
    (update_frame_data cli w s).2.video_writer_ = s.video_writer_ := by
  unfold update_frame_data GetFrame
  cases hg : w.GetFrame s.fetches <;> cases hw : s.show_warning <;> simp [hp, hw]

/-- What `update_window` does to the fields the claims speak of. -/
theorem update_window_fields (cli : CliArgs) (title : String) (s : RunState) :
    (update_window cli title s).pause = s.pause ∧
    (update_window cli title s).show_warning = s.show_warning ∧
    (update_window cli title s).fetches = s.fetches ∧
    (update_window cli title s).log = s.log ∧
    (update_window cli title s).armor_center = s.armor_center ∧
    (update_window cli title s).show_fps = s.show_fps ∧
    (update_window cli title s).exit_signal_ = s.exit_signal_ ∧
    (update_window cli title s).rec_frame_count
      = (if s.pause = false ∧ s.show_warning = true ∧ cli.Record = true
          then (s.rec_frame_count + 1) % 2 ^ 32 else s.rec_frame_count) ∧
    (update_window cli title s).video_writer_
      = (if s.pause = false ∧ s.show_warning = true ∧ cli.Record = true
          then s.video_writer_ ++ [s.frame_.image] else s.video_writer_) := by
  unfold update_window
  cases hp : s.pause <;> cases hw : s.show_warning <;> cases hr : cli.Record <;>
    cases hu : cli.UI <;> cases hs : s.start_time <;>
    simp [frame_time_str, hp, hw, hr, hu, hs]

/-- The lambda `stop_count_fps` writes `fps` only. -/
theorem stop_count_fps_fields (ts_end : Timespec) (s : RunState) :
    (stop_count_fps ts_end s).pause = s.pause ∧
    (stop_count_fps ts_end s).show_warning = s.show_warning ∧
    (stop_count_fps ts_end s).fetches = s.fetches ∧
    (stop_count_fps ts_end s).log = s.log ∧
    (stop_count_fps ts_end s).armor_center = s.armor_center ∧
    (stop_count_fps ts_end s).show_fps = s.show_fps ∧
    (stop_count_fps ts_end s).exit_signal_ = s.exit_signal_ ∧
    (stop_count_fps ts_end s).rec_frame_count = s.rec_frame_count ∧
    (stop_count_fps ts_end s).video_writer_ = s.video_writer_ := by
  unfold stop_count_fps
  by_cases h : ts_end.tv_nsec - s.ts_start.tv_nsec > 0 <;> simp [h]

/-- What `check_key` does to the fields the claims speak of; its log records are not
warnings. -/
theorem check_key_fields (cli : CliArgs) (key : Int) (s : RunState) :
    (check_key cli key s).pause
      = (if cli.UI = true ∧ key = KEY_p then !s.pause else s.pause) ∧
    (check_key cli key s).show_warning = s.show_warning ∧
    (check_key cli key s).fetches = s.fetches ∧
    warning_count (check_key cli key s) = warning_count s ∧
    (check_key cli key s).armor_center = s.armor_center ∧
    (check_key cli key s).show_fps = s.show_fps ∧
    (check_key cli key s).rec_frame_count = s.rec_frame_count ∧
    (check_key cli key s).video_writer_ = s.video_writer_ := by
  unfold check_key warning_count
  by_cases hu : cli.UI = true <;> by_cases hq : key = KEY_q <;> by_cases hp : key = KEY_p <;>
    simp_all [KEY_p, KEY_q]

/-- A pass of the loop entered paused reduces to the clock readings and the key poll. -/
theorem tick_paused (cli : CliArgs) (w : Collab) (inp : TickInput) (s : RunState)
    (hp : s.pause = true) :
    tick cli w inp s
      = check_key cli inp.key (stop_count_fps inp.t_end (start_count_fps inp.t_start s)) := by
  simp [tick, update_frame_data, update_window, start_count_fps, hp]

/-- A pass of the loop entered unpaused, with `ok` the outcome of its fetch: the pause flag
after it, the frames-arriving flag, the fetch count, the warnings logged, the
recorded-frame count and the images written. -/
theorem tick_unpaused (cli : CliArgs) (w : Collab) (inp : TickInput) (s : RunState)
    (hp : s.pause = false) :
    (tick cli w inp s).pause = (if cli.UI = true ∧ inp.key = KEY_p then true else false) ∧
    (tick cli w inp s).show_warning = (w.GetFrame s.fetches).isSome ∧
    (tick cli w inp s).fetches = s.fetches + 1 ∧
    warning_count (tick cli w inp s)
      = warning_count s +
        (if (w.GetFrame s.fetches).isSome = false ∧ s.show_warning = true then 1 else 0) ∧
    (tick cli w inp s).rec_frame_count
      = (if cli.Record = true ∧ (w.GetFrame s.fetches).isSome = true
          then (s.rec_frame_count + 1) % 2 ^ 32 else s.rec_frame_count) ∧
    (∃ img : Mat, (tick cli w inp s).video_writer_
      = (if cli.Record = true ∧ (w.GetFrame s.fetches).isSome = true
          then s.video_writer_ ++ [img] else s.video_writer_)) := by
  have h1 := update_frame_data_unpaused cli w (start_count_fps inp.t_start s)
    (by simpa [start_count_fps] using hp)
  simp only [start_count_fps] at h1
  obtain ⟨-, h1p, h1w, h1f, h1l, h1r, h1v⟩ := h1
  unfold tick
  simp only [start_count_fps]
  generalize (update_frame_data cli w _).2 = s2 at *
  have h3 : ∀ b : Bool, same_control (if b then detect_and_aim w s2 else s2) s2 := by
    intro b
    cases b
    · simp [same_control]
    · simpa using detect_and_aim_same_control w s2
  generalize hb : (cli.UI && !s2.pause && s2.show_warning) = b
  have h3b := h3 b
  generalize (if b = true then detect_and_aim w s2 else s2) = s3 at *
  unfold same_control at h3b
  obtain ⟨-, -, e_p, e_w, -, -, -, -, -, e_r, -, e_f, e_v, -, e_l⟩ := h3b
  have h4 := update_window_fields cli "SENTRY" s3
  generalize update_window cli "SENTRY" s3 = s4 at *
  obtain ⟨f_p, f_w, f_f, f_l, -, -, -, f_r, f_v⟩ := h4
  have h5 := stop_count_fps_fields inp.t_end s4
  generalize stop_count_fps inp.t_end s4 = s5 at *
  obtain ⟨g_p, g_w, g_f, g_l, -, -, -, g_r, g_v⟩ := h5
  have h6 := check_key_fields cli inp.key s5
  generalize check_key cli inp.key s5 = s6 at *
  obtain ⟨k_p, k_w, k_f, k_l, -, -, k_r, k_v⟩ := h6
  have hwc : warning_count s5 = warning_count s +
      (if (w.GetFrame s.fetches).isSome = false ∧ s.show_warning = true then 1 else 0) := by
    unfold warning_count
    rw [g_l, f_l, e_l, h1l]
    split_ifs <;> simp
  refine ⟨?_, ?_, ?_, ?_, ?_, ?_⟩
  · rw [k_p, g_p, f_p, e_p, h1p]; simp
  · rw [k_w, g_w, f_w, e_w, h1w]
  · rw [k_f, g_f, f_f, e_f, h1f]
  · rw [k_l, hwc]
  · rw [k_r, g_r, f_r, e_r, e_p, e_w, h1r, h1p, h1w]
    cases hr : cli.Record <;> cases hg : (w.GetFrame s.fetches).isSome <;> simp
  · refine ⟨s3.frame_.image, ?_⟩
    rw [k_v, g_v, f_v, e_v, e_p, e_w, h1v, h1p, h1w]
    cases hr : cli.Record <;> cases hg : (w.GetFrame s.fetches).isSome <;> simp

/-- One quiet step from a paused state keeps the pause flag, the recorded-frame count, the
acquisition center and the smoothed FPS. -/
theorem step_paused_quiet (cli : CliArgs) (w : Collab) (st : Step) (s : RunState)
    (hp : s.pause = true) (hq : st.quiet) :
    (step cli w st s).pause = true ∧
    (step cli w st s).rec_frame_count = s.rec_frame_count ∧
    (step cli w st s).armor_center = s.armor_center ∧
    (step cli w st s).show_fps = s.show_fps := by
  cases st with
  | main inp =>
    obtain ⟨hkp, -⟩ := hq
    unfold step
    by_cases hx : s.exit_signal_ = true
    · simp [hx, hp]
    · simp only [Bool.not_eq_true] at hx
      simp only [hx, Bool.not_false, if_true]
      rw [tick_paused cli w inp s hp]
      obtain ⟨k_p, -, -, -, k_c, k_s, k_r, -⟩ :=
        check_key_fields cli inp.key (stop_count_fps inp.t_end (start_count_fps inp.t_start s))
      obtain ⟨g_p, -, -, -, g_c, g_s, -, g_r, -⟩ :=
        stop_count_fps_fields inp.t_end (start_count_fps inp.t_start s)
      rw [k_p, k_c, k_s, k_r, g_p, g_c, g_s, g_r]
      simp [start_count_fps, hp, hkp]
  | telemetry =>
    unfold step auto_log_fps_body
    simp [hp]
  | pointer e => exact absurd hq (by simp [Step.quiet])

/-- C2: from every state with `pause = true`, for every setting of the UI, recording and
serial flags and every behaviour of the collaborators (the frame source included), every
sequence of main-loop passes and telemetry iterations, in any order and of any length, in
which no pass polls the key `p` or `q` and no pointer event is delivered, leaves the
recorded-frame count, the acquisition center and the smoothed FPS `show_fps` at their
values before the sequence (and the loop paused). -/
theorem C2_paused_steps_keep (cli : CliArgs) (w : Collab) (sts : List Step) (s : RunState)
    (hp : s.pause = true) (hq : ∀ st ∈ sts, st.quiet) :
    (steps cli w sts s).rec_frame_count = s.rec_frame_count ∧
    (steps cli w sts s).armor_center = s.armor_center ∧
    (steps cli w sts s).show_fps = s.show_fps ∧
    (steps cli w sts s).pause = true := by
  induction sts generalizing s with
  | nil => exact ⟨rfl, rfl, rfl, hp⟩
  | cons st sts ih =>
    obtain ⟨h1, h2, h3, h4⟩ :=
      step_paused_quiet cli w st s hp (hq st (List.mem_cons_self _ _))
    obtain ⟨i1, i2, i3, i4⟩ :=
      ih (step cli w st s) h1 (fun x hx => hq x (List.mem_cons_of_mem _ hx))
    exact ⟨i1.trans h2, i2.trans h3, i3.trans h4, i4⟩

/-- A pass of the loop entered paused records nothing. -/
theorem tick_paused_recording (cli : CliArgs) (w : Collab) (inp : TickInput) (s : RunState)
    (hp : s.pause = true) :
    (tick cli w inp s).rec_frame_count = s.rec_frame_count ∧
    (tick cli w inp s).video_writer_ = s.video_writer_ := by
  rw [tick_paused cli w inp s hp]
  obtain ⟨-, -, -, -, -, -, k_r, k_v⟩ :=
    check_key_fields cli inp.key (stop_count_fps inp.t_end (start_count_fps inp.t_start s))
  obtain ⟨-, -, -, -, -, -, -, g_r, g_v⟩ :=
    stop_count_fps_fields inp.t_end (start_count_fps inp.t_start s)
  rw [k_r, k_v, g_r, g_v]
  simp [start_count_fps]

/-- C4 fails as stated: recording is enabled, the loop is not paused, the fetch of the pass
succeeds and the recorded-frame count is 4294967295 = 2^32 - 1; after the pass the
`uint32_t` count is 0, not 4294967296. -/
theorem C4_count_wraps_at_max :
    (⟨false, true, false⟩ : CliArgs).Record = true ∧
    ({ sample_state with rec_frame_count := 4294967295 } : RunState).pause = false ∧
    (sample_collab.GetFrame
      ({ sample_state with rec_frame_count := 4294967295 } : RunState).fetches).isSome = true ∧
    (tick ⟨false, true, false⟩ sample_collab ⟨⟨0, 0⟩, ⟨0, 1000⟩, -1⟩
      { sample_state with rec_frame_count := 4294967295 }).rec_frame_count = 0 ∧
    (0 : Nat) ≠ 4294967295 + 1 := by
  refine ⟨rfl, rfl, rfl, ?_, by decide⟩
  rw [(tick_unpaused ⟨false, true, false⟩ sample_collab ⟨⟨0, 0⟩, ⟨0, 1000⟩, -1⟩
      { sample_state with rec_frame_count := 4294967295 } rfl).2.2.2.2.1]
  simp [sample_state, Run_init, sample_collab]

/-- C4 as amended: in every pass of the loop, if recording is enabled, the loop is not
paused at the start of the pass and the fetch of the pass succeeds, the recorded-frame
count becomes (count + 1) mod 2^32, which is count + 1 whenever count + 1 < 2^32, and
exactly one image is appended to what the recorder received; in every other case the
count and what the recorder received are unchanged. The count and the number of images
written are the same whatever the UI flag is. -/
theorem C4_tick_recording (cli : CliArgs) (w : Collab) (inp : TickInput) (s : RunState) :
    (cli.Record = true ∧ s.pause = false ∧ (w.GetFrame s.fetches).isSome = true →
      (tick cli w inp s).rec_frame_count = (s.rec_frame_count + 1) % 2 ^ 32 ∧
      (s.rec_frame_count + 1 < 2 ^ 32 →
        (tick cli w inp s).rec_frame_count = s.rec_frame_count + 1) ∧
      ∃ img : Mat, (tick cli w inp s).video_writer_ = s.video_writer_ ++ [img]) ∧
    (¬ (cli.Record = true ∧ s.pause = false ∧ (w.GetFrame s.fetches).isSome = true) →
      (tick cli w inp s).rec_frame_count = s.rec_frame_count ∧
      (tick cli w inp s).video_writer_ = s.video_writer_) ∧
    (∀ ui : Bool,
      (tick { cli with UI := ui } w inp s).rec_frame_count
        = (tick cli w inp s).rec_frame_count ∧
      (tick { cli with UI := ui } w inp s).video_writer_.length
        = (tick cli w inp s).video_writer_.length) := by
  cases hp : s.pause
  · obtain ⟨-, -, -, -, hr, img, hv⟩ := tick_unpaused cli w inp s hp
    refine ⟨?_, ?_, ?_⟩
    · rintro ⟨h1, -, h3⟩
      have hr1 : (tick cli w inp s).rec_frame_count = (s.rec_frame_count + 1) % 2 ^ 32 := by
        rw [hr]; simp [h1, h3]
      refine ⟨hr1, fun hlt => ?_, img, ?_⟩
      · rw [hr1, Nat.mod_eq_of_lt hlt]
      · rw [hv]; simp [h1, h3]
    · intro hn
      have hc : ¬ (cli.Record = true ∧ (w.GetFrame s.fetches).isSome = true) :=
        fun hc => hn ⟨hc.1, rfl, hc.2⟩
      rw [hr, hv]
      simp [hc]
    · intro ui
      obtain ⟨-, -, -, -, hr2, img2, hv2⟩ := tick_unpaused { cli with UI := ui } w inp s hp
      refine ⟨by rw [hr, hr2], ?_⟩
      rw [hv, hv2]
      split_ifs <;> simp
  · obtain ⟨hr, hv⟩ := tick_paused_recording cli w inp s hp
    refine ⟨?_, ?_, ?_⟩
    · rintro ⟨-, h2, -⟩
      exact absurd h2 (by simp)
    · exact fun _ => ⟨hr, hv⟩
    · intro ui
      obtain ⟨hr2, hv2⟩ := tick_paused_recording { cli with UI := ui } w inp s hp
      exact ⟨by rw [hr, hr2], by rw [hv, hv2]⟩

/-- Running one more pass after a sequence of passes. -/
theorem ticks_append_one (cli : CliArgs) (w : Collab) (inps : List TickInput)
    (inp : TickInput) (s : RunState) :
    ticks cli w (inps ++ [inp]) s = tick cli w inp (ticks cli w inps s) := by
  simp [ticks, List.foldl_append]

/-- The first `k + 1` passes are the first `k` passes followed by pass `k`. -/
theorem ticks_take_succ (cli : CliArgs) (w : Collab) (inps : List TickInput) (s : RunState)
    (k : Nat) (hk : k < inps.length) :
    ticks cli w (inps.take (k + 1)) s
      = tick cli w (inps.get ⟨k, hk⟩) (ticks cli w (inps.take k) s) := by
  rw [List.take_succ, List.getElem?_eq_getElem hk]
  exact ticks_append_one cli w _ _ s

/-- After `k` unpaused ticks: still unpaused, `k` more fetches made, and the
frames-arriving flag holds the outcome of the last fetch (its loop-entry value for k = 0). -/
theorem ticks_unpaused_state (cli : CliArgs) (w : Collab) (inps : List TickInput)
    (s0 : RunState) (hp : s0.pause = false)
    (hkeys : ∀ inp ∈ inps, ¬ (cli.UI = true ∧ inp.key = KEY_p)) (k : Nat)
    (hk : k ≤ inps.length) :
    (ticks cli w (inps.take k) s0).pause = false ∧
    (ticks cli w (inps.take k) s0).fetches = s0.fetches + k ∧
    (ticks cli w (inps.take k) s0).show_warning
      = (if k = 0 then s0.show_warning else (w.GetFrame (s0.fetches + (k - 1))).isSome) := by
  induction k with
  | zero => simp [ticks, hp]
  | succ k ih =>
    have hlt : k < inps.length := hk
    obtain ⟨ihp, ihf, -⟩ := ih (Nat.le_of_lt hlt)
    rw [ticks_take_succ cli w inps s0 k hlt]
    obtain ⟨tp, tw, tf, -⟩ := tick_unpaused cli w (inps.get ⟨k, hlt⟩) _ ihp
    have hno := hkeys (inps.get ⟨k, hlt⟩) (List.get_mem _ _ _)
    refine ⟨?_, ?_, ?_⟩
    · rw [tp]; simp only [hno, if_false]
    · rw [tf, ihf]; omega
    · rw [tw, ihf]; simp

/-- Counters that grow by one exactly on a failure that follows a success (or comes first)
grow by exactly one over a run of consecutive failures that starts on such an edge. -/
theorem once_per_failure_run (wc : Nat → Nat) (ok : Nat → Bool) (n : Nat)
    (h : ∀ k, k < n → wc (k + 1) = wc k +
      (if ok k = false ∧ (k = 0 ∨ ok (k - 1) = true) then 1 else 0))
    (i j : Nat) (hij : i ≤ j) (hj : j < n) (hfail : ∀ m, i ≤ m → m ≤ j → ok m = false)
    (hedge : i = 0 ∨ ok (i - 1) = true) : wc (j + 1) = wc i + 1 := by
  induction j, hij using Nat.le_induction with
  | base =>
    rw [h i hj]
    simp [hfail i (Nat.le_refl i) (Nat.le_refl i), hedge]
  | succ j hij ih =>
    have hprev : ok j = false := hfail j hij (Nat.le_succ j)
    rw [h (j + 1) hj, ih (Nat.lt_of_succ_lt hj) (fun m h1 h2 => hfail m h1 (Nat.le_succ_of_le h2))]
    simp [hprev]

/-- C5: take any sequence of passes of the main loop that starts unpaused with the
frames-arriving flag at its loop-entry value `true` and in which no pass toggles the pause,
with arbitrary fetch outcomes. Pass `k` makes fetch number `k` of the sequence, and the
warning is logged in pass `k` (once) if and only if that fetch fails and either `k = 0` or
fetch `k - 1` succeeded; so over a run of consecutive failed fetches that starts on such
an edge the warning is logged exactly once. The warning comes from `update_frame_data`,
whose single call while unpaused logs it exactly when the fetch fails with the flag set,
and stores the outcome in the flag. A call of `update_frame_data` while paused returns
`false` and changes nothing: no fetch, no log record, the flag as it was. -/
theorem C5_warning_on_edge (cli : CliArgs) (w : Collab) (inps : List TickInput)
    (s0 : RunState) (hp : s0.pause = false) (hw : s0.show_warning = true)
    (hkeys : ∀ inp ∈ inps, ¬ (cli.UI = true ∧ inp.key = KEY_p)) :
    (∀ k, k < inps.length →
      (ticks cli w (inps.take k) s0).fetches = s0.fetches + k ∧
      warning_count (ticks cli w (inps.take (k + 1)) s0)
        = warning_count (ticks cli w (inps.take k) s0) +
          (if (w.GetFrame (s0.fetches + k)).isSome = false ∧
              (k = 0 ∨ (w.GetFrame (s0.fetches + (k - 1))).isSome = true) then 1 else 0)) ∧
    (∀ i j, i ≤ j → j < inps.length →
      (∀ m, i ≤ m → m ≤ j → (w.GetFrame (s0.fetches + m)).isSome = false) →
      (i = 0 ∨ (w.GetFrame (s0.fetches + (i - 1))).isSome = true) →
      warning_count (ticks cli w (inps.take (j + 1)) s0)
        = warning_count (ticks cli w (inps.take i) s0) + 1) ∧
    (∀ s : RunState, s.pause = false →
      (update_frame_data cli w s).1 = (w.GetFrame s.fetches).isSome ∧
      (update_frame_data cli w s).2.show_warning = (w.GetFrame s.fetches).isSome ∧
      (update_frame_data cli w s).2.log
        = s.log ++ (if (w.GetFrame s.fetches).isSome = false ∧ s.show_warning = true
            then [LogRecord.warning_no_frame] else [])) ∧
    (∀ s : RunState, s.pause = true → update_frame_data cli w s = (false, s)) := by
  have hstep : ∀ k, k < inps.length →
      (ticks cli w (inps.take k) s0).fetches = s0.fetches + k ∧
      warning_count (ticks cli w (inps.take (k + 1)) s0)
        = warning_count (ticks cli w (inps.take k) s0) +
          (if (w.GetFrame (s0.fetches + k)).isSome = false ∧
              (k = 0 ∨ (w.GetFrame (s0.fetches + (k - 1))).isSome = true) then 1 else 0) := by
    intro k hk
    obtain ⟨ihp, ihf, ihw⟩ := ticks_unpaused_state cli w inps s0 hp hkeys k (Nat.le_of_lt hk)
    refine ⟨ihf, ?_⟩
    rw [ticks_take_succ cli w inps s0 k hk]
    obtain ⟨-, -, -, twc, -⟩ := tick_unpaused cli w (inps.get ⟨k, hk⟩) _ ihp
    rw [twc, ihf, ihw]
    by_cases h0 : k = 0
    · simp [h0, hw]
    · simp [h0]
  refine ⟨hstep, fun i j hij hj hfail hedge => ?_, fun s hs => ?_, fun s hs => ?_⟩
  · exact once_per_failure_run
      (fun k => warning_count (ticks cli w (inps.take k) s0))
      (fun k => (w.GetFrame (s0.fetches + k)).isSome) inps.length
      (fun k hk => (hstep k hk).2) i j hij hj hfail hedge
  · obtain ⟨h1, -, h3, -, h5, -⟩ := update_frame_data_unpaused cli w s hs
    exact ⟨h1, h3, h5⟩
  · simp [update_frame_data, hs]

/-- C2 at a concrete run: paused at loop entry, UI and recording on; a pass without key, a
telemetry iteration and a pass with the key `x` leave the count 0, the center (45, 40)
and the smoothed FPS 0. -/
theorem C2_paused_steps_keep_witness :
    (steps ⟨true, true, false⟩ sample_collab
        [Step.main ⟨⟨0, 0⟩, ⟨0, 1000⟩, -1⟩, Step.telemetry, Step.main ⟨⟨0, 5⟩, ⟨0, 9⟩, 120⟩]
        { sample_state with pause := true }).rec_frame_count = 0 ∧
    (steps ⟨true, true, false⟩ sample_collab
        [Step.main ⟨⟨0, 0⟩, ⟨0, 1000⟩, -1⟩, Step.telemetry, Step.main ⟨⟨0, 5⟩, ⟨0, 9⟩, 120⟩]
        { sample_state with pause := true }).armor_center = ⟨45, 40⟩ ∧
    (steps ⟨true, true, false⟩ sample_collab
        [Step.main ⟨⟨0, 0⟩, ⟨0, 1000⟩, -1⟩, Step.telemetry, Step.main ⟨⟨0, 5⟩, ⟨0, 9⟩, 120⟩]
        { sample_state with pause := true }).show_fps = 0 ∧
    (steps ⟨true, true, false⟩ sample_collab
        [Step.main ⟨⟨0, 0⟩, ⟨0, 1000⟩, -1⟩, Step.telemetry, Step.main ⟨⟨0, 5⟩, ⟨0, 9⟩, 120⟩]
        { sample_state with pause := true }).pause = true :=
  C2_paused_steps_keep ⟨true, true, false⟩ sample_collab
    [Step.main ⟨⟨0, 0⟩, ⟨0, 1000⟩, -1⟩, Step.telemetry, Step.main ⟨⟨0, 5⟩, ⟨0, 9⟩, 120⟩]
    { sample_state with pause := true } rfl (by simp [Step.quiet, KEY_p, KEY_q])

/-- C4 as amended, at the first pass of a recording run without UI: the fetch succeeds and
the count goes from 0 to 1. -/
theorem C4_tick_recording_witness :
    (tick ⟨false, true, false⟩ sample_collab ⟨⟨0, 0⟩, ⟨0, 1000⟩, -1⟩
      sample_state).rec_frame_count = 0 + 1 :=
  ((C4_tick_recording ⟨false, true, false⟩ sample_collab ⟨⟨0, 0⟩, ⟨0, 1000⟩, -1⟩
    sample_state).1 ⟨rfl, rfl, rfl⟩).2.1 (by decide)

/-- C5 at a concrete run of four passes whose fetches succeed, fail, fail and succeed: the
second pass logs the warning, and over the run of the two failures it is logged once. -/
theorem C5_warning_on_edge_witness :
    warning_count (ticks ⟨false, false, false⟩ sample_collab
        (List.take (1 + 1) (List.replicate 4 ⟨⟨0, 0⟩, ⟨0, 1000⟩, -1⟩)) sample_state)
      = warning_count (ticks ⟨false, false, false⟩ sample_collab
        (List.take 1 (List.replicate 4 ⟨⟨0, 0⟩, ⟨0, 1000⟩, -1⟩)) sample_state) + 1 ∧
    warning_count (ticks ⟨false, false, false⟩ sample_collab
        (List.take (2 + 1) (List.replicate 4 ⟨⟨0, 0⟩, ⟨0, 1000⟩, -1⟩)) sample_state)
      = warning_count (ticks ⟨false, false, false⟩ sample_collab
        (List.take 1 (List.replicate 4 ⟨⟨0, 0⟩, ⟨0, 1000⟩, -1⟩)) sample_state) + 1 :=
  ⟨(C5_warning_on_edge ⟨false, false, false⟩ sample_collab
      (List.replicate 4 ⟨⟨0, 0⟩, ⟨0, 1000⟩, -1⟩) sample_state rfl rfl
      (by simp)).2.1 1 1 (by decide) (by decide)
      (fun m h1 h2 => by
        have hm : m = 1 := by omega
        subst hm; rfl) (Or.inr rfl),
   (C5_warning_on_edge ⟨false, false, false⟩ sample_collab
      (List.replicate 4 ⟨⟨0, 0⟩, ⟨0, 1000⟩, -1⟩) sample_state rfl rfl
      (by simp)).2.1 1 2 (by decide) (by decide)
      (fun m h1 h2 => by
        have hm : m = 1 ∨ m = 2 := by omega
        rcases hm with hm | hm <;> subst hm <;> rfl) (Or.inr rfl)⟩

end Sentry
